import Mathlib

/-!
Verification of the demart-photo-loop animation scheduler.

This file embeds, in Lean, the scheduler logic of the repository:

* the fetch-driven variant (`src/unnamed/part_001`): card data fetched from
  an HTTP endpoint, merged with an `isNew` flag, and a random-no-repeat
  selection routine `selectRandomCard`;
* the GSAP variants (`src/app/page.tsx`, `src/unnamed/part_000`,
  `src/unnamed/part_002`): a countdown timer, a single-flight `isAnimating`
  lock, `animateImage`, and the fallback interpolation routines
  `animateElement` / `fallbackAnimateElement`.

Machine reals of the JavaScript source are modelled as rationals; DOM
elements are modelled by their bounding rectangles; `Math.random()` is
modelled as a stream of rationals in `[0, 1)`.
-/

namespace PhotoLoop

/-- A DOM bounding rectangle, as captured by `getBoundingClientRect()`. -/
structure DOMRect where
  left : ℚ
  top : ℚ
  width : ℚ
  height : ℚ
deriving DecidableEq

/-- Which side grid a card sits in (`"left" | "right"` in the source). -/
inductive Side where
  | left
  | right
deriving DecidableEq

/-- The `AnimatingCard` record of `src/unnamed/part_001` (lines 11-16). -/
structure AnimatingCard where
  id : ℕ
  originalRect : DOMRect
  side : Side
  gridIndex : ℕ
deriving DecidableEq

/-- The `CardData` record of `src/unnamed/part_001` (lines 18-24).
The optional TypeScript field `isNew?: boolean` is modelled as a `Bool`
defaulting to `false` (in the source an absent flag and a `false` flag are
used interchangeably: both render without the entrance animation). -/
structure CardData where
  id : ℕ
  outletName : String
  bpName : String
  imageUrl : String
  isNew : Bool := false
deriving DecidableEq

/-- One raw item of the JSON response of the photo-loop endpoint
(`result.data` in `fetchPhotoLoop`, fields extracted at lines 62-69). -/
structure FetchedItem where
  outletName : String
  bpName : String
  imageUrl : String
deriving DecidableEq

/-- The React state of `AnimatedCardsPage` (`src/unnamed/part_001`,
lines 31-42) that the scheduler reads and writes. -/
structure FetchState where
  animatingCard : Option AnimatingCard
  showText : Bool
  lastAnimatedIndex : Option ℕ
  data : List CardData
  loading : Bool
  error : Option String
  timeUntilFetch : ℕ
deriving DecidableEq

/-- The composite identity key used by `fetchPhotoLoop` to detect new
items: the template string of line 78 and 82 of `src/unnamed/part_001`. -/
def cardKey (c : CardData) : String :=
  c.outletName ++ "-" ++ c.bpName

/-- Lines 62-69 of `src/unnamed/part_001`: build the card list from the
fetched items, assigning `id := index` positionally. -/
def buildNewData (items : List FetchedItem) : List CardData :=
  items.enum.map fun p =>
    { id := p.1
      outletName := p.2.outletName
      bpName := p.2.bpName
      imageUrl := p.2.imageUrl }

/-- The `setData` updater of `fetchPhotoLoop` (lines 71-91 of
`src/unnamed/part_001`): on the initial fetch the new list is installed
as-is; on a later fetch each new item is flagged `isNew` exactly when its
composite key does not occur among the keys of the previous list. -/
def mergeFetch (isInitial : Bool) (prevData newData : List CardData) :
    List CardData :=
  if isInitial then newData
  else
    let prevIds := prevData.map cardKey
    newData.map fun item => { item with isNew := !(prevIds.contains (cardKey item)) }

/-- The delayed updater of line 87 of `src/unnamed/part_001`: two seconds
after a merge, every `isNew` flag is cleared. -/
def clearNewFlags (l : List CardData) : List CardData :=
  l.map fun item => { item with isNew := false }

/-- Fetch interval of `src/unnamed/part_001` (lines 28-29):
2 minutes in milliseconds. -/
def FETCH_INTERVAL_MS : ℕ := 2 * 60 * 1000

/-- The state effect of a successful completion of `fetchPhotoLoop`
(lines 50-94 of `src/unnamed/part_001`): `setError(null)` ran at entry and
no later `setError` fires, `setData` applies `mergeFetch` immediately
(there is no buffering against an in-flight animation), and the fetch
countdown is reset.  The `loading` flag is cleared by a separate delayed
callback and is left untouched here. -/
def applyFetchSuccess (isInitial : Bool) (items : List FetchedItem)
    (st : FetchState) : FetchState :=
  { st with
    data := mergeFetch isInitial st.data (buildNewData items)
    error := none
    timeUntilFetch := FETCH_INTERVAL_MS }

/-- The state effect of a failed `fetchPhotoLoop` (catch block, lines
95-96 of `src/unnamed/part_001`): the error message is recorded; `setData`
never runs, so the card list is untouched. -/
def applyFetchFailure (msg : String) (st : FetchState) : FetchState :=
  { st with error := some msg }

/-- What `AnimatedCardsPage` renders, abstracted to the three top-level
branches of lines 195-245 of `src/unnamed/part_001`. -/
inductive RenderView where
  | loadingScreen
  | errorScreen (msg : String)
  | mainView
deriving DecidableEq

/-- The top-level render decision of `AnimatedCardsPage`
(`src/unnamed/part_001`): line 195 returns the loading screen when
`loading || !data.length`; line 230 returns the error screen when
`error && !data.length`; otherwise the main view renders. -/
def renderPage (st : FetchState) : RenderView :=
  if st.loading || st.data.isEmpty then RenderView.loadingScreen
  else
    match st.error with
    | some msg => if st.data.isEmpty then RenderView.errorScreen msg else RenderView.mainView
    | none => RenderView.mainView

/-- `Math.floor(Math.random() * data.length)` (lines 144 and 148 of
`src/unnamed/part_001`), where the random draw is the `k`-th element of
the stream `rng`.  For draws in `[0, 1)` the natural-number floor agrees
with the JavaScript floor. -/
def drawIndex (rng : ℕ → ℚ) (k : ℕ) (len : ℕ) : ℕ :=
  Nat.floor (rng k * len)

/-- A model of `Math.random()`: every draw lies in `[0, 1)`. -/
def ValidRng (rng : ℕ → ℚ) : Prop :=
  ∀ n, 0 ≤ rng n ∧ rng n < 1

/-- The `do ... while (randomIndex === lastAnimatedIndex && attempts <
maxAttempts)` retry loop of lines 143-146 of `src/unnamed/part_001`,
restructured as structural recursion on the remaining retries
(`fuel = maxAttempts - attempts`): each round draws one index; a draw
equal to `last` is retried while fuel remains, and the final draw is
returned unconditionally. -/
def retryLoopAux (rng : ℕ → ℚ) (len last : ℕ) : ℕ → ℕ → ℕ
  | 0, k => drawIndex rng k len
  | fuel + 1, k =>
      let idx := drawIndex rng k len
      if idx = last then retryLoopAux rng len last fuel (k + 1) else idx

/-- The full retry loop with `maxAttempts = 10` (line 139): the first
draw plus at most nine retries. -/
def retryDraw (rng : ℕ → ℚ) (len last : ℕ) : ℕ :=
  retryLoopAux rng len last 9 0

/-- The index-selection portion of `selectRandomCard` (lines 137-149 of
`src/unnamed/part_001`): with more than one card and a recorded last
index, the retry loop runs; otherwise a single draw is taken. -/
def selectIndex (rng : ℕ → ℚ) (st : FetchState) : ℕ :=
  match st.lastAnimatedIndex with
  | some last =>
      if 1 < st.data.length then retryDraw rng st.data.length last
      else drawIndex rng 0 st.data.length
  | none => drawIndex rng 0 st.data.length

/-- `selectRandomCard` of `src/unnamed/part_001` (lines 134-175).  The
card refs array `cardRefs.current` is modelled by `refs`: `refs.getD i
none` is the element at index `i` together with its bounding rectangle,
or `none` when no element is mounted there.  The immediate state effect
is captured: the guard of line 135, the index selection, the element
lookup of line 151 (silently aborting when it is `none`), and the
`setAnimatingCard` / `setLastAnimatedIndex` updates of lines 159-167.
The delayed `showText` / clear callbacks of lines 169-173 fire later and
are not part of the synchronous step. -/
def selectRandomCard (rng : ℕ → ℚ) (refs : List (Option DOMRect))
    (st : FetchState) : FetchState :=
  if st.animatingCard.isSome || st.data.isEmpty then st
  else
    let randomIndex := selectIndex rng st
    match refs.getD randomIndex none with
    | none => st
    | some rect =>
        let leftGridSize := (st.data.length + 1) / 2
        let side := if randomIndex < leftGridSize then Side.left else Side.right
        let gridIndex := randomIndex % leftGridSize
        { st with
          animatingCard := some
            { id := randomIndex
              originalRect := rect
              side := side
              gridIndex := gridIndex }
          lastAnimatedIndex := some randomIndex }

/-! ## The GSAP variants (`src/app/page.tsx`, `src/unnamed/part_000`,
`src/unnamed/part_002`) -/

/-- The `Participant` record of `src/app/page.tsx` (lines 81-86).
`src/unnamed/part_000` and `part_002` omit `shopName`; the larger record
subsumes them. -/
structure Participant where
  id : ℕ
  name : String
  imageUrl : String
  shopName : String
deriving DecidableEq

/-- A mounted `<img>` element of the grid: its positional index (parsed
from the `img-<index>` id attribute) and bounding rectangle. -/
structure ImageElement where
  index : ℕ
  rect : DOMRect
deriving DecidableEq

/-- The React state of `PhotoLoopApp` (`src/app/page.tsx`, lines 90-223)
that the scheduler reads and writes. -/
structure GsapState where
  participants : List Participant
  isAnimating : Bool
  nextAnimationIn : ℕ
  isAddingImages : Bool
  currentAnimatingPerson : Option Participant
  showPersonInfo : Bool
deriving DecidableEq

/-- `leftSideParticipants = participants.slice(0, 10)`
(`src/app/page.tsx` line 602). -/
def leftSideParticipants (st : GsapState) : List Participant :=
  st.participants.take 10

/-- `rightSideParticipants = participants.slice(10, 20)`
(`src/app/page.tsx` line 603). -/
def rightSideParticipants (st : GsapState) : List Participant :=
  (st.participants.drop 10).take 10

/-- `animateImage` of `src/app/page.tsx` (lines 269-453), immediate
synchronous effect.  The guard of lines 270-276 returns at once when an
animation is already in flight or when the image element, container ref
or center ref is missing.  Otherwise `setIsAnimating(true)` fires and the
participant for the element index is looked up (lines 281-288); an
out-of-range index yields `undefined`, modelled as `none`.  The GSAP /
fallback timeline and its delayed callbacks run later and do not touch
the state synchronously. -/
def animateImage (st : GsapState) (imageElement : Option ImageElement)
    (containerRef centerRef : Option DOMRect) : GsapState :=
  match imageElement, containerRef, centerRef with
  | some el, some _, some _ =>
      if st.isAnimating then st
      else
        let participant :=
          if el.index < 10 then (leftSideParticipants st).get? el.index
          else (rightSideParticipants st).get? (el.index - 10)
        { st with
          isAnimating := true
          currentAnimatingPerson := participant }
  | _, _, _ => st

/-- The `onComplete` callback closing a cycle (`src/app/page.tsx` lines
377-382, also `src/unnamed/part_000` lines 164-167 and
`src/unnamed/part_002` lines 251-253 / 300-302): the single-flight lock
is released, the selected person and caption are cleared, and the
countdown is reset to 3. -/
def cycleComplete (st : GsapState) : GsapState :=
  { st with
    isAnimating := false
    currentAnimatingPerson := none
    showPersonInfo := false
    nextAnimationIn := 3 }

/-- One firing of the countdown interval (`src/app/page.tsx` lines
256-263, identically `src/unnamed/part_000` lines 102-109 and
`src/unnamed/part_002` lines 142-149): a value at most 1 resets to 3, any
other value decrements. -/
def countdownTick (v : ℕ) : ℕ :=
  if v ≤ 1 then 3 else v - 1

/-- The gate of the countdown effect (`src/app/page.tsx` line 254): the
interval only runs while not animating and not adding images. -/
def countdownActive (isAnimating isAddingImages : Bool) : Bool :=
  !isAnimating && !isAddingImages

/-- The condition of `src/app/page.tsx` line 476 (and
`src/unnamed/part_000` line 197, `src/unnamed/part_002` line 335) under
which the animation-start callback is scheduled: the countdown shows
exactly 1. -/
def animationTriggerAt (v : ℕ) : Bool :=
  v == 1

/-- Countdown values reachable in any run of the GSAP variants: the
initial `useState(3)`, the once-per-second tick, and the
cycle-completion reset. -/
inductive CountdownReachable : ℕ → Prop
  | init : CountdownReachable 3
  | tick (v : ℕ) : CountdownReachable v → CountdownReachable (countdownTick v)
  | complete (st : GsapState) : CountdownReachable (cycleComplete st).nextAnimationIn

/-! ## The fallback interpolation routines (`src/unnamed/part_000`
`animateElement`, `src/app/page.tsx` / `src/unnamed/part_002`
`fallbackAnimateElement`) -/

/-- `progress = Math.min(elapsed / duration, 1)` (line 36 of
`src/unnamed/part_000`, line 43 of `src/app/page.tsx`). -/
def progressOf (elapsed duration : ℚ) : ℚ :=
  min (elapsed / duration) 1

/-- The cubic ease-out of `animateElement`
(`src/unnamed/part_000` line 39): `1 - (1 - progress)^3`. -/
def easeOutCubic (p : ℚ) : ℚ :=
  1 - (1 - p) ^ 3

/-- The piecewise-quadratic ease-in-out of `fallbackAnimateElement`
(`src/app/page.tsx` lines 45-48): `2p²` below one half, else
`1 - (-2p + 2)² / 2`. -/
def easeInOutQuad (p : ℚ) : ℚ :=
  if p < 1 / 2 then 2 * p * p else 1 - (-2 * p + 2) ^ 2 / 2

/-- `current = start + (end - start) * eased` (line 45 of
`src/unnamed/part_000`, line 54 of `src/app/page.tsx`), with the eased
progress passed in. -/
def interpolate (start stop eased : ℚ) : ℚ :=
  start + (stop - start) * eased

/-! ## Concrete fixtures used by witnesses and counterexamples -/

/-- A random stream drawing `0` forever (a legal `Math.random()` run). -/
def rngZero : ℕ → ℚ := fun _ => 0

theorem rngZero_valid : ValidRng rngZero :=
  fun _ => ⟨le_refl 0, by norm_num [rngZero]⟩

/-- A sample bounding rectangle. -/
def rect0 : DOMRect := { left := 0, top := 0, width := 10, height := 10 }

def cardA : CardData :=
  { id := 0, outletName := "o1", bpName := "b1", imageUrl := "u1" }

def cardB : CardData :=
  { id := 1, outletName := "o2", bpName := "b2", imageUrl := "u2" }

def itemB : FetchedItem :=
  { outletName := "o2", bpName := "b2", imageUrl := "u2" }

/-- A fetch-variant state with an animation in flight. -/
def stBusy : FetchState :=
  { animatingCard := some { id := 0, originalRect := rect0, side := Side.left, gridIndex := 0 }
    showText := false
    lastAnimatedIndex := some 0
    data := [cardA]
    loading := false
    error := none
    timeUntilFetch := 0 }

/-- An idle two-card state whose last animated index is 0. -/
def stLast0 : FetchState :=
  { animatingCard := none
    showText := false
    lastAnimatedIndex := some 0
    data := [cardA, cardB]
    loading := false
    error := none
    timeUntilFetch := 0 }

/-- An idle two-card state whose last animated index is 1. -/
def stLast1 : FetchState :=
  { stLast0 with lastAnimatedIndex := some 1 }

/-- An idle one-card state with no last animated index. -/
def stOne : FetchState :=
  { stLast0 with data := [cardA], lastAnimatedIndex := none }

/-- A GSAP-variant state with an animation in flight. -/
def gstBusy : GsapState :=
  { participants := []
    isAnimating := true
    nextAnimationIn := 3
    isAddingImages := false
    currentAnimatingPerson := none
    showPersonInfo := false }

/-- An idle GSAP-variant state. -/
def gstIdle : GsapState :=
  { gstBusy with isAnimating := false }

/-! ## Claims -/

/-- Claim C1: for every card list with at least one card, whenever the
animation state is non-idle (an animating card is set in the fetch
variant, `isAnimating` is true in the GSAP variants), invoking the cycle
starter (`selectRandomCard`, resp. `animateImage`) returns without
changing any state: the animating-card state, selected-card reference,
card list and last-animated index are all untouched, so at most one
animation cycle is in flight. -/
theorem C1_single_flight (rng : ℕ → ℚ) (refs : List (Option DOMRect))
    (st : FetchState) (gst : GsapState) (e : Option ImageElement)
    (c r : Option DOMRect)
    (h1 : st.animatingCard.isSome = true) (h2 : gst.isAnimating = true) :
    selectRandomCard rng refs st = st ∧ animateImage gst e c r = gst := by
  constructor
  · simp [selectRandomCard, h1]
  · cases e <;> cases c <;> cases r <;> simp [animateImage, h2]

/-- Witness for C1 at a concrete busy state of each variant. -/
theorem C1_single_flight_witness :
    selectRandomCard rngZero [] stBusy = stBusy ∧
      animateImage gstBusy none none none = gstBusy :=
  C1_single_flight rngZero [] stBusy gstBusy none none none rfl rfl

/-- Claim C2, counterexample: with an animation in flight
(`animatingCard` is set) a completed fetch replaces the visible card list
immediately — the list after `applyFetchSuccess` differs from the list
before while the animation is still in flight, contradicting the claimed
buffering until the next idle transition. -/
theorem C2_counterexample :
    stBusy.animatingCard.isSome = true ∧
      (applyFetchSuccess false [itemB] stBusy).animatingCard.isSome = true ∧
      (applyFetchSuccess false [itemB] stBusy).data ≠ stBusy.data := by
  refine ⟨rfl, rfl, ?_⟩
  decide

/-- Claim C2, amended: `fetchPhotoLoop` applies the data replacement
immediately when the fetch completes, regardless of the animation state:
the installed list is exactly the merge of the new data with the previous
list, it is the same whether or not an animation is in flight, and the
in-flight animation state itself is not touched by the swap.  There is no
buffering of a pending list until the next idle transition. -/
theorem C2_amended (isInitial : Bool) (items : List FetchedItem)
    (st : FetchState) (a : AnimatingCard) :
    (applyFetchSuccess isInitial items st).data
        = mergeFetch isInitial st.data (buildNewData items) ∧
      (applyFetchSuccess isInitial items { st with animatingCard := some a }).data
        = (applyFetchSuccess isInitial items { st with animatingCard := none }).data ∧
      (applyFetchSuccess isInitial items st).animatingCard = st.animatingCard :=
  ⟨rfl, rfl, rfl⟩

/-- The retry loop returns the first draw that differs from `last`; in
particular it differs from `last` as soon as any draw within the fuel
budget does. -/
theorem retryLoopAux_ne_of_exists (rng : ℕ → ℚ) (len last : ℕ) :
    ∀ fuel k, (∃ j, j ≤ fuel ∧ drawIndex rng (k + j) len ≠ last) →
      retryLoopAux rng len last fuel k ≠ last := by
  intro fuel
  induction fuel with
  | zero =>
      intro k h
      obtain ⟨j, hj, hne⟩ := h
      interval_cases j
      simpa [retryLoopAux] using hne
  | succ fuel ih =>
      intro k h
      obtain ⟨j, hj, hne⟩ := h
      by_cases hk : drawIndex rng k len = last
      · simp only [retryLoopAux, hk, if_pos]
        apply ih (k + 1)
        have hj0 : j ≠ 0 := by
          intro h0
          apply hne
          rw [h0, Nat.add_zero, hk]
        refine ⟨j - 1, by omega, ?_⟩
        have : k + 1 + (j - 1) = k + j := by omega
        rw [this]
        exact hne
      · simp [retryLoopAux, hk]

/-- Claim C3, counterexample: with two cards, last animated index 0 and a
random stream that keeps drawing 0, the retry cap of 10 is exhausted and
`selectRandomCard` selects index 0 again — the selected index equals the
immediately preceding selection. -/
theorem C3_counterexample :
    1 < stLast0.data.length ∧ stLast0.lastAnimatedIndex = some 0 ∧
      (selectRandomCard rngZero [some rect0, some rect0] stLast0).animatingCard
        = some { id := 0, originalRect := rect0, side := Side.left, gridIndex := 0 } := by
  refine ⟨by decide, rfl, ?_⟩
  simp [selectRandomCard, selectIndex, retryDraw, retryLoopAux, drawIndex, rngZero, stLast0]

/-- Claim C3, amended: with more than one card and a recorded last index,
the index selected by `selectRandomCard` differs from the immediately
preceding selection provided at least one of the ten draws of the retry
loop differs from it (that is, unless retry exhaustion forces a repeat). -/
theorem C3_no_repeat_amended (rng : ℕ → ℚ) (refs : List (Option DOMRect))
    (st : FetchState) (last : ℕ) (ac : AnimatingCard)
    (hlen : 1 < st.data.length)
    (hlast : st.lastAnimatedIndex = some last)
    (hdraw : ∃ j, j < 10 ∧ drawIndex rng j st.data.length ≠ last)
    (hsel : (selectRandomCard rng refs st).animatingCard = some ac)
    (hidle : st.animatingCard = none) :
    ac.id ≠ last := by
  have hne : retryDraw rng st.data.length last ≠ last := by
    apply retryLoopAux_ne_of_exists
    obtain ⟨j, hj, hne⟩ := hdraw
    exact ⟨j, by omega, by simpa using hne⟩
  have hnotempty : st.data.isEmpty = false := by
    cases hd : st.data with
    | nil => rw [hd] at hlen; simp at hlen
    | cons a l => rfl
  have hix : selectIndex rng st = retryDraw rng st.data.length last := by
    simp [selectIndex, hlast, hlen]
  unfold selectRandomCard at hsel
  rw [hidle, hnotempty] at hsel
  simp only [Option.isSome_none, Bool.false_or, Bool.false_eq_true, if_false] at hsel
  rw [hix] at hsel
  cases href : refs.getD (retryDraw rng st.data.length last) none with
  | none =>
      rw [href] at hsel
      rw [hidle] at hsel
      cases hsel
  | some rect =>
      rw [href] at hsel
      simp only [Option.some.injEq] at hsel
      rw [← hsel]
      exact hne

/-- Witness for C3 (amended) at a concrete input: two cards, last index 1,
a stream drawing 0, so the first draw already differs and the selected
card has index 0, which is not 1. -/
theorem C3_no_repeat_amended_witness :
    (AnimatingCard.id { id := 0, originalRect := rect0, side := Side.left, gridIndex := 0 }) ≠ 1 :=
  C3_no_repeat_amended rngZero [some rect0, some rect0] stLast1 1
    { id := 0, originalRect := rect0, side := Side.left, gridIndex := 0 }
    (by decide) rfl
    ⟨0, by norm_num, by simp [drawIndex, rngZero, stLast1, stLast0]⟩
    (by simp [selectRandomCard, selectIndex, retryDraw, retryLoopAux, drawIndex, rngZero,
          stLast1, stLast0])
    rfl

/-- Claim C4: after a non-initial fetch, an item of the merged list is
flagged new exactly when its composite key `outletName ++ "-" ++ bpName`
does not occur among the keys of the previous list.  The two spec
scenarios (identical refetch flags nothing; one fresh key flags exactly
that item) are instances of this equivalence. -/
theorem C4_new_flag (prev newData : List CardData) (it : CardData)
    (hit : it ∈ mergeFetch false prev newData) :
    it.isNew = true ↔ cardKey it ∉ prev.map cardKey := by
  simp only [mergeFetch, Bool.false_eq_true, if_false, List.mem_map] at hit
  obtain ⟨x, _, rfl⟩ := hit
  have hkey : cardKey { x with isNew := !((prev.map cardKey).contains (cardKey x)) }
      = cardKey x := rfl
  rw [hkey]
  simp

/-- Witness for C4: a previous list holding only `cardA` and a new list
holding only `cardB`; the merged item carries a fresh key and is
flagged. -/
theorem C4_new_flag_witness :
    ({ cardB with isNew := true } : CardData).isNew = true ↔
      cardKey { cardB with isNew := true } ∉ [cardA].map cardKey :=
  C4_new_flag [cardA] [cardB] { cardB with isNew := true } (by decide)

/-- Claim C5: the fallback interpolation evaluated at clamped progress
0 yields the start value exactly and at clamped progress 1 yields the
target exactly, both for the cubic ease-out of `animateElement` and for
the piecewise-quadratic ease-in-out of `fallbackAnimateElement`, for any
positive duration. -/
theorem C5_interpolation_endpoints (s e duration : ℚ) (hd : 0 < duration) :
    interpolate s e (easeOutCubic (progressOf 0 duration)) = s ∧
      interpolate s e (easeOutCubic (progressOf duration duration)) = e ∧
      interpolate s e (easeInOutQuad (progressOf 0 duration)) = s ∧
      interpolate s e (easeInOutQuad (progressOf duration duration)) = e := by
  have h0 : progressOf 0 duration = 0 := by
    simp [progressOf]
  have h1 : progressOf duration duration = 1 := by
    simp [progressOf, div_self hd.ne']
  rw [h0, h1]
  norm_num [interpolate, easeOutCubic, easeInOutQuad]

/-- Witness for C5 at start 2, target 5, duration 3. -/
theorem C5_interpolation_endpoints_witness :
    interpolate 2 5 (easeOutCubic (progressOf 0 3)) = 2 ∧
      interpolate 2 5 (easeOutCubic (progressOf 3 3)) = 5 ∧
      interpolate 2 5 (easeInOutQuad (progressOf 0 3)) = 2 ∧
      interpolate 2 5 (easeInOutQuad (progressOf 3 3)) = 5 :=
  C5_interpolation_endpoints 2 5 3 (by norm_num)

/-- The state after a failed initial fetch: no data ever loaded, the
error recorded, the loading flag already cleared. -/
def stFailedInitial : FetchState :=
  { animatingCard := none
    showText := false
    lastAnimatedIndex := none
    data := []
    loading := false
    error := some "HTTP error! status: 500"
    timeUntilFetch := 0 }

/-- Claim C6: the code records a fetch error without touching the card
list, but it never surfaces the error: the loading-screen branch of line
195 of `src/unnamed/part_001` fires whenever the card list is empty, so
the error-screen branch of line 230 (whose own condition mirrors the
claim) is unreachable.  In the concrete failed-initial-fetch state the
page shows the loading screen although the claim requires the error to be
surfaced; in general no state renders the error screen, while the catch
block indeed leaves the card list unchanged. -/
theorem C6_error_never_surfaced :
    renderPage stFailedInitial = RenderView.loadingScreen ∧
      (∀ (st : FetchState) (msg : String), renderPage st ≠ RenderView.errorScreen msg) ∧
      (∀ (msg : String) (st : FetchState), (applyFetchFailure msg st).data = st.data) := by
  refine ⟨rfl, ?_, fun _ _ => rfl⟩
  intro st msg
  unfold renderPage
  by_cases h : (st.loading || st.data.isEmpty) = true
  · simp [h]
  · have hload : st.loading = false := by
      cases hl : st.loading
      · rfl
      · rw [hl] at h; simp at h
    have hempty : st.data.isEmpty = false := by
      cases he : st.data.isEmpty
      · rfl
      · rw [he] at h; simp at h
    cases herr : st.error <;> simp [hload, hempty, herr]

/-- Claim C7, counterexample: the cycle-start callback is scheduled by
the condition `nextAnimationIn === 1` — it does not fire at countdown
value 0 and does fire at value 1, and the tick at value 1 resets the
countdown straight to 3, so the countdown never reaches zero as the claim
requires. -/
theorem C7_counterexample :
    animationTriggerAt 0 = false ∧ animationTriggerAt 1 = true ∧
      countdownTick 1 = 3 := by
  decide

/-- Claim C7, amended: while idle and not adding images the once-per-
second tick decrements countdown values above 1 and maps values at most 1
back to 3 (the countdown therefore never becomes 0); the cycle start is
scheduled exactly when the displayed countdown equals 1 (firing after a
further one-second delay), not at 0; and cycle completion resets the
countdown to 3. -/
theorem C7_tick_amended (v : ℕ) (st : GsapState) (b1 b2 : Bool) :
    countdownTick (v + 2) = v + 1 ∧
      countdownTick 1 = 3 ∧
      countdownTick 0 = 3 ∧
      countdownTick v ≠ 0 ∧
      (animationTriggerAt v = true ↔ v = 1) ∧
      (cycleComplete st).nextAnimationIn = 3 ∧
      (countdownActive b1 b2 = true ↔ b1 = false ∧ b2 = false) := by
  refine ⟨?_, rfl, rfl, ?_, ?_, rfl, ?_⟩
  · unfold countdownTick
    split <;> omega
  · unfold countdownTick
    split <;> omega
  · simp [animationTriggerAt]
  · cases b1 <;> cases b2 <;> simp [countdownActive]

/-- Claim C8: when the targeted DOM element cannot be located (the ref at
the selected index is unmounted in the fetch variant; the element handle
is null in the GSAP variants) the cycle silently aborts with the whole
scheduler state unchanged: the animation state stays idle, the
last-animated index, card list, countdown and error are untouched. -/
theorem C8_silent_abort (rng : ℕ → ℚ) (refs : List (Option DOMRect))
    (st : FetchState) (gst : GsapState) (c r : Option DOMRect)
    (hmiss : refs.getD (selectIndex rng st) none = none) :
    selectRandomCard rng refs st = st ∧ animateImage gst none c r = gst := by
  constructor
  · simp only [selectRandomCard, hmiss, ite_self]
  · cases c <;> cases r <;> rfl

/-- Witness for C8: an empty refs array (no element mounted) and a
missing image element leave both variants untouched. -/
theorem C8_silent_abort_witness :
    selectRandomCard rngZero [] stOne = stOne ∧
      animateImage gstIdle none none none = gstIdle :=
  C8_silent_abort rngZero [] stOne gstIdle none none (List.getD_nil)

/-- Claim C9: the displayed countdown of the GSAP variants never shows 0:
every value reachable from the initial `useState(3)` through timer ticks
and cycle-completion resets lies in the set of 1, 2 and 3. -/
theorem C9_countdown_range (v : ℕ) (h : CountdownReachable v) :
    v = 1 ∨ v = 2 ∨ v = 3 := by
  induction h with
  | init => right; right; rfl
  | tick w _ ih => rcases ih with h1 | h1 | h1 <;> subst h1 <;> decide
  | complete st => right; right; rfl

/-- Witness for C9 at the initial countdown value 3. -/
theorem C9_countdown_range_witness :
    (3 : ℕ) = 1 ∨ (3 : ℕ) = 2 ∨ (3 : ℕ) = 3 :=
  C9_countdown_range 3 CountdownReachable.init

/-- A single draw of `Math.floor(Math.random() * len)` is a valid index
whenever the list is nonempty and the random stream stays in `[0, 1)`. -/
theorem drawIndex_lt (rng : ℕ → ℚ) (hrng : ValidRng rng) (k len : ℕ)
    (hlen : 0 < len) : drawIndex rng k len < len := by
  unfold drawIndex
  rcases hrng k with ⟨h0, h1⟩
  have hl : (0 : ℚ) < len := by exact_mod_cast hlen
  have hnn : (0 : ℚ) ≤ rng k * len := mul_nonneg h0 (le_of_lt hl)
  rw [Nat.floor_lt hnn]
  calc rng k * (len : ℚ) < 1 * len := mul_lt_mul_of_pos_right h1 hl
  _ = len := one_mul _

/-- Every value the retry loop can return is one of its draws, hence a
valid index. -/
theorem retryLoopAux_lt (rng : ℕ → ℚ) (hrng : ValidRng rng) (len last : ℕ)
    (hlen : 0 < len) : ∀ fuel k, retryLoopAux rng len last fuel k < len := by
  intro fuel
  induction fuel with
  | zero => intro k; exact drawIndex_lt rng hrng k len hlen
  | succ fuel ih =>
      intro k
      simp only [retryLoopAux]
      split
      · exact ih (k + 1)
      · exact drawIndex_lt rng hrng k len hlen

/-- The selected index is always a valid index of the card list it was
drawn from. -/
theorem selectIndex_lt (rng : ℕ → ℚ) (hrng : ValidRng rng)
    (st : FetchState) (hlen : 0 < st.data.length) :
    selectIndex rng st < st.data.length := by
  unfold selectIndex
  split
  · split
    · exact retryLoopAux_lt rng hrng _ _ hlen 9 0
    · exact drawIndex_lt rng hrng 0 _ hlen
  · exact drawIndex_lt rng hrng 0 _ hlen

/-- `buildNewData` assigns ids positionally. -/
theorem buildNewData_id (items : List FetchedItem) (i : ℕ) (c : CardData)
    (hc : (buildNewData items)[i]? = some c) : c.id = i := by
  unfold buildNewData at hc
  rw [List.getElem?_map, List.getElem?_enum] at hc
  cases h : items[i]? with
  | none => rw [h] at hc; simp at hc
  | some it =>
      rw [h] at hc
      simp only [Option.map_some', Option.some.injEq] at hc
      rw [← hc]

/-- The `isNew` merge preserves ids: if the incoming list is positional,
so is the merged list. -/
theorem mergeFetch_id (isInitial : Bool) (prev newData : List CardData)
    (hnew : ∀ (i : ℕ) (c : CardData), newData[i]? = some c → c.id = i) :
    ∀ (i : ℕ) (c : CardData),
      (mergeFetch isInitial prev newData)[i]? = some c → c.id = i := by
  intro i c hc
  simp only [mergeFetch] at hc
  split at hc
  · exact hnew i c hc
  · rw [List.getElem?_map] at hc
    cases h : newData[i]? with
    | none => rw [h] at hc; simp at hc
    | some it =>
        rw [h] at hc
        simp only [Option.map_some', Option.some.injEq] at hc
        rw [← hc]
        exact hnew i it h

/-- Clearing the `isNew` flags also preserves ids. -/
theorem clearNewFlags_id (l : List CardData)
    (hl : ∀ (i : ℕ) (c : CardData), l[i]? = some c → c.id = i) :
    ∀ (i : ℕ) (c : CardData), (clearNewFlags l)[i]? = some c → c.id = i := by
  intro i c hc
  unfold clearNewFlags at hc
  rw [List.getElem?_map] at hc
  cases h : l[i]? with
  | none => rw [h] at hc; simp at hc
  | some it =>
      rw [h] at hc
      simp only [Option.map_some', Option.some.injEq] at hc
      rw [← hc]
      exact hl i it h

/-- Claim C10: in the fetch variant every card list installed by
`fetchPhotoLoop` carries positionally assigned ids (`data[i].id = i`,
preserved both by the `isNew` merge and by the delayed flag-clearing
pass), and the id stored in an `AnimatingCard` by `selectRandomCard` is a
valid index into the card list it was selected from. -/
theorem C10_positional_ids (rng : ℕ → ℚ) (refs : List (Option DOMRect))
    (st : FetchState) (isInitial : Bool) (items : List FetchedItem)
    (prev : List CardData) (ac : AnimatingCard)
    (hrng : ValidRng rng) (hidle : st.animatingCard = none)
    (hsel : (selectRandomCard rng refs st).animatingCard = some ac) :
    (∀ (i : ℕ) (c : CardData),
        (mergeFetch isInitial prev (buildNewData items))[i]? = some c → c.id = i) ∧
      (∀ (i : ℕ) (c : CardData),
        (clearNewFlags (mergeFetch isInitial prev (buildNewData items)))[i]? = some c →
          c.id = i) ∧
      ac.id < st.data.length := by
  refine ⟨mergeFetch_id _ _ _ (fun i c => buildNewData_id items i c),
    clearNewFlags_id _ (mergeFetch_id _ _ _ (fun i c => buildNewData_id items i c)), ?_⟩
  by_cases hemp : st.data.isEmpty = true
  · unfold selectRandomCard at hsel
    rw [hidle, hemp] at hsel
    simp only [Option.isSome_none, Bool.or_true, if_true] at hsel
    rw [hidle] at hsel
    cases hsel
  · have hempf : st.data.isEmpty = false := by
      cases he : st.data.isEmpty
      · rfl
      · exact absurd he hemp
    have hlen : 0 < st.data.length := by
      cases hd : st.data with
      | nil => rw [hd] at hempf; simp at hempf
      | cons a l => simp [hd]
    unfold selectRandomCard at hsel
    rw [hidle, hempf] at hsel
    simp only [Option.isSome_none, Bool.false_or, Bool.false_eq_true, if_false] at hsel
    cases href : refs.getD (selectIndex rng st) none with
    | none =>
        rw [href] at hsel
        rw [hidle] at hsel
        cases hsel
    | some rect =>
        rw [href] at hsel
        simp only [Option.some.injEq] at hsel
        rw [← hsel]
        exact selectIndex_lt rng hrng st hlen

/-- Witness for C10: one fetched item yields the single card with id 0,
and a concrete selection from a one-card list stores the valid index 0. -/
theorem C10_positional_ids_witness :
    ({ id := 0, outletName := "o2", bpName := "b2", imageUrl := "u2",
        isNew := true } : CardData).id = 0 ∧
      AnimatingCard.id { id := 0, originalRect := rect0, side := Side.left, gridIndex := 0 }
        < stOne.data.length := by
  have h := C10_positional_ids rngZero [some rect0] stOne false [itemB] []
    { id := 0, originalRect := rect0, side := Side.left, gridIndex := 0 }
    rngZero_valid rfl
    (by simp [selectRandomCard, selectIndex, drawIndex, rngZero, stOne, stLast0])
  exact ⟨h.1 0 _ rfl, h.2.2⟩

end PhotoLoop
